import Mathlib

/-!
Verification of the conversation-history core of the bedrockNoobPOC
repository: the Message Store access layer, the History Window Resolver
(`MongoDBClient.get_conversation_history`), the repository read path with
its legacy `type`→`role` migration (`ConversationRepository`), the history
tool facade (`ConversationHandler`), the metadata filter
(`KnowledgeBaseRetriever.filter_by_metadata`) and the Agent Orchestrator's
error handling (`BedrockRAGAgent.answer_question`).

Stored MongoDB documents are modelled as `Message` records with optional
fields (a missing dict key is `none`); the MongoDB collection is a list of
documents plus a `failing` flag modelling a `PyMongoError` raised during a
query; MongoDB's sort on `timestamp` is modelled by an insertion sort.
-/

namespace BedrockPOC

/-- A stored conversation document. Optional fields model dict keys that
may be absent: `role`, the legacy `type_` field (Python `type`), and
`content`. `timestamp` is the sole sort key. -/
structure Message where
  conversation_id : String
  role : Option String
  type_ : Option String
  content : Option String
  timestamp : Nat
deriving DecidableEq, Repr

/-- Insert a document into a newest-first list, keeping it after every
document with a timestamp at least as large. -/
def insertByTimestampDesc (m : Message) : List Message → List Message
  | [] => [m]
  | x :: xs =>
      if m.timestamp ≤ x.timestamp then x :: insertByTimestampDesc m xs
      else m :: x :: xs

/-- Sort documents newest-first by `timestamp`, modelling
`sort=[("timestamp", DESCENDING)]` in a MongoDB `find`. -/
def sortByTimestampDesc : List Message → List Message
  | [] => []
  | x :: xs => insertByTimestampDesc x (sortByTimestampDesc xs)

/-- Insert a document into an oldest-first list, keeping it after every
document with a timestamp at most as large. -/
def insertByTimestampAsc (m : Message) : List Message → List Message
  | [] => [m]
  | x :: xs =>
      if x.timestamp ≤ m.timestamp then x :: insertByTimestampAsc m xs
      else m :: x :: xs

/-- Sort documents oldest-first by `timestamp`, modelling
`.sort("timestamp", 1)` in a MongoDB `find`. -/
def sortByTimestampAsc : List Message → List Message
  | [] => []
  | x :: xs => insertByTimestampAsc x (sortByTimestampAsc xs)

/-- A MongoDB collection: its documents plus a `failing` flag modelling a
`PyMongoError` (or any other exception) raised by the driver during a
query on this collection. -/
structure MongoCollection where
  docs : List Message
  failing : Bool
deriving Repr

/-- `collection.find({"conversation_id": conv_id}, sort=[("timestamp",
DESCENDING)], limit=lim)` as issued by `MongoDBClient
.get_conversation_history` (mongodb_client.py lines 123-127): filter by
conversation, sort newest-first, cap at `lim` — pymongo treats
`limit=0` as no limit, so a zero cap returns every matching document.
A driver failure raises, modelled as `Except.error`. -/
def MongoCollection.findDesc (c : MongoCollection) (conv_id : String)
    (lim : Nat) : Except String (List Message) :=
  if c.failing then Except.error "PyMongoError"
  else
    let sorted := sortByTimestampDesc
      (c.docs.filter (fun m => m.conversation_id == conv_id))
    Except.ok (if lim = 0 then sorted else sorted.take lim)

/-- `collection.find(query, {"_id": 0}).sort("timestamp", 1)` with
optional `skip` and `limit`, as issued by `ConversationRepository
.get_conversation_history` (conversation_repository.py lines 95-108):
`cursor.limit(n)` is applied whenever `limit is not None`, and pymongo
treats `cursor.limit(0)` as no limit. -/
def MongoCollection.findAsc (c : MongoCollection) (conv_id : String)
    (limit : Option Nat) (skip : Nat) : Except String (List Message) :=
  if c.failing then Except.error "PyMongoError"
  else
    let sorted := sortByTimestampAsc
      (c.docs.filter (fun m => m.conversation_id == conv_id))
    let afterSkip := sorted.drop skip
    Except.ok (match limit with
      | some n => if n = 0 then afterSkip else afterSkip.take n
      | none => afterSkip)

/-- Python's `limit or default` applied to an optional integer argument:
`None` and `0` are falsy, so both fall back to the default. -/
def pyOrNat (limit : Option Nat) (defaultVal : Nat) : Nat :=
  match limit with
  | none => defaultVal
  | some n => if n == 0 then defaultVal else n

/-- The exclusion scan of mongodb_client.py lines 130-141: when at least
two messages were fetched, examine only the first two (newest-first)
positions; the first time one has literal field `role == "user"`, drop the
two newest messages and stop. A message without a `role` key never
matches (`msg.get("role")` is `None`). -/
def dropCurrentPair (messages : List Message) : List Message :=
  if 2 ≤ messages.length then
    if (messages.take 2).any (fun m => m.role == some "user") then
      messages.drop 2
    else messages
  else messages

/-- `MongoDBClient.get_conversation_history` (mongodb_client.py lines
89-151). `is_connected` models "the store is reachable": the Python code
returns `[]` when it is not connected and `_connect()` fails. The caller
default for `limit` is `None` and for `exclude_current` is `True`;
`max_history_length` is the instance attribute (config default 10). Any
exception from the query is caught and yields `[]`. -/
def MongoDBClient.get_conversation_history (is_connected : Bool)
    (collection : MongoCollection) (max_history_length : Nat)
    (conversation_id : String) (limit : Option Nat := none)
    (exclude_current : Bool := true) : List Message :=
  let lim := pyOrNat limit max_history_length
  if is_connected = false then []
  else
    match collection.findDesc conversation_id
        (lim + (if exclude_current then 2 else 0)) with
    | Except.error _ => []
    | Except.ok messages =>
        let messages :=
          if exclude_current then dropCurrentPair messages else messages
        messages.reverse

/-- The legacy `type`→`role` translation of conversation_repository.py
lines 116-124: `human→user`, `ai→assistant`, `system→system`, any other
value passes through unchanged. -/
def mapTypeToRole (t : String) : String :=
  if t = "human" then "user"
  else if t = "ai" then "assistant"
  else if t = "system" then "system"
  else t

/-- The per-record validation of conversation_repository.py lines
112-136: translate a legacy `type` into `role` when `role` is absent,
then default a still-missing `role` to `"user"` and a missing `content`
to `""`. -/
def validateMessage (msg : Message) : Message :=
  let msg :=
    match msg.role, msg.type_ with
    | none, some t => { msg with role := some (mapTypeToRole t) }
    | _, _ => msg
  let msg := if msg.role = none then { msg with role := some "user" } else msg
  let msg := if msg.content = none then { msg with content := some "" } else msg
  msg

/-- `ConversationRepository.get_conversation_history`
(conversation_repository.py lines 69-143): `collection_available` models
`self.collection is not None`; a `PyMongoError` during the query is
caught and yields `[]`; every fetched record is validated. -/
def ConversationRepository.get_conversation_history
    (collection_available : Bool) (collection : MongoCollection)
    (conversation_id : String) (limit : Option Nat := none)
    (skip : Nat := 0) : List Message :=
  if collection_available = false then []
  else
    match collection.findAsc conversation_id limit skip with
    | Except.error _ => []
    | Except.ok messages => messages.map validateMessage

/-- `collection.delete_many({"conversation_id": conversation_id})`:
remaining documents and the `deleted_count`. -/
def delete_many (docs : List Message) (conv_id : String) :
    List Message × Nat :=
  let remaining := docs.filter (fun m => m.conversation_id != conv_id)
  (remaining, docs.length - remaining.length)

/-- Outcome of `ConversationRepository.clear_conversation`: the returned
boolean and the `deleted_count` reported by the store. -/
structure ClearOutcome where
  success : Bool
  deleted_count : Nat
deriving DecidableEq, Repr

/-- `ConversationRepository.clear_conversation`
(conversation_repository.py lines 145-167): delete every document of the
conversation and report success; an unavailable collection or a
`PyMongoError` yields `False` and leaves the store unchanged. -/
def ConversationRepository.clear_conversation (collection_available : Bool)
    (collection : MongoCollection) (conversation_id : String) :
    ClearOutcome × MongoCollection :=
  if collection_available = false then
    ({ success := false, deleted_count := 0 }, collection)
  else if collection.failing then
    ({ success := false, deleted_count := 0 }, collection)
  else
    let r := delete_many collection.docs conversation_id
    ({ success := true, deleted_count := r.2 },
     { collection with docs := r.1 })

/-- One formatted message of the history tool facade's response
(conversation_handler.py lines 53-60). -/
structure FormattedMessage where
  role : String
  content : String
  timestamp : Nat
deriving DecidableEq, Repr

/-- The per-message formatting of conversation_handler.py lines 55-60:
`msg.get("role", "unknown")` and `msg.get("content", "")`; the timestamp
serialization is kept as the numeric timestamp. -/
def formatMessage (msg : Message) : FormattedMessage :=
  { role := msg.role.getD "unknown"
    content := msg.content.getD ""
    timestamp := msg.timestamp }

/-- The history tool facade's response record
(conversation_handler.py lines 64-69). -/
structure HistoryResponse where
  conversation_id : String
  messages : List FormattedMessage
  message_count : Nat
deriving DecidableEq, Repr

/-- `ConversationHandler.get_conversation_history`
(conversation_handler.py lines 22-81): forwards `limit or
Config.MAX_HISTORY_LENGTH` to the MongoDB client and formats each raw
message for the response. -/
def ConversationHandler.get_conversation_history (is_connected : Bool)
    (collection : MongoCollection) (max_history_length : Nat)
    (conversation_id : String) (limit : Option Nat := none)
    (exclude_current : Bool := true) : HistoryResponse :=
  let raw := MongoDBClient.get_conversation_history is_connected collection
    max_history_length conversation_id
    (some (pyOrNat limit max_history_length)) exclude_current
  { conversation_id := conversation_id
    messages := raw.map formatMessage
    message_count := (raw.map formatMessage).length }

/-- A message of the model runtime's result list: `HumanMessage`,
`AIMessage` or a tool message. -/
inductive AgentMsg where
  | human (content : String)
  | ai (content : String)
  | tool (content : String)
deriving DecidableEq, Repr

/-- `isinstance(msg, AIMessage)`. -/
def AgentMsg.isAI : AgentMsg → Bool
  | AgentMsg.ai _ => true
  | _ => false

/-- The `content` attribute of a model-runtime message. -/
def AgentMsg.text : AgentMsg → String
  | AgentMsg.human c => c
  | AgentMsg.ai c => c
  | AgentMsg.tool c => c

/-- The response record of `BedrockRAGAgent.answer_question`: the message
list and the `error` marker (`False` models the success return, whose
dict carries no `error` key). -/
structure AnswerResult where
  messages : List AgentMsg
  error : Bool
deriving DecidableEq, Repr

/-- `BedrockRAGAgent.answer_question` (agent.py lines 83-159). The memory
is the persisted list of `(role, content)` pairs; `modelRun` is the
outcome of `self.agent.ainvoke` — either the result message list or a
raised exception (`Except.error` with the exception text). The user query
is recorded first; an exception is caught, recorded as an assistant
message and returned with `error := true`; a result without any
`AIMessage` yields the fixed synthesized error; otherwise the last
`AIMessage`'s content is recorded and the raw result returned. -/
def BedrockRAGAgent.answer_question (memory : List (String × String))
    (user_query : String) (modelRun : Except String (List AgentMsg)) :
    AnswerResult × List (String × String) :=
  let memory1 := memory ++ [("user", user_query)]
  match modelRun with
  | Except.error e =>
      let error_message :=
        "An error occurred while generating the answer: " ++ e
      ({ messages := [AgentMsg.human ("Answer this question: " ++ user_query),
                      AgentMsg.ai error_message],
         error := true },
       memory1 ++ [("assistant", error_message)])
  | Except.ok result =>
      match (result.filter AgentMsg.isAI).getLast? with
      | none =>
          let error_response :=
            "Error: Could not generate an answer for this query."
          ({ messages :=
               [AgentMsg.human ("Answer this question: " ++ user_query),
                AgentMsg.ai error_response],
             error := true },
           memory1 ++ [("assistant", error_response)])
      | some last =>
          ({ messages := result, error := false },
           memory1 ++ [("assistant", last.text)])

/-- A retrieval source document: its content and, when the `metadata` key
is present, the metadata dict as an association list with distinct keys. -/
structure Source where
  content : String
  metadata : Option (List (String × String))
deriving DecidableEq, Repr

/-- `KnowledgeBaseRetriever.filter_by_metadata`
(knowledge_base_retriever.py lines 92-119): keep the sources whose
metadata dict contains `field` with a value equal to `value`; a source
without a `metadata` key or without the field is excluded. -/
def KnowledgeBaseRetriever.filter_by_metadata (sources : List Source)
    (field : String) (value : String) : List Source :=
  sources.filter (fun source =>
    match source.metadata with
    | none => false
    | some md =>
        match md.lookup field with
        | none => false
        | some v => v == value)

/-! Helper lemmas about the sort model. -/

theorem length_insertByTimestampDesc (m : Message) (l : List Message) :
    (insertByTimestampDesc m l).length = l.length + 1 := by
  induction l with
  | nil => rfl
  | cons x xs ih =>
      simp only [insertByTimestampDesc]
      split <;> simp [ih]

theorem length_sortByTimestampDesc (l : List Message) :
    (sortByTimestampDesc l).length = l.length := by
  induction l with
  | nil => rfl
  | cons x xs ih =>
      simp [sortByTimestampDesc, length_insertByTimestampDesc, ih]

theorem length_insertByTimestampAsc (m : Message) (l : List Message) :
    (insertByTimestampAsc m l).length = l.length + 1 := by
  induction l with
  | nil => rfl
  | cons x xs ih =>
      simp only [insertByTimestampAsc]
      split <;> simp [ih]

theorem length_sortByTimestampAsc (l : List Message) :
    (sortByTimestampAsc l).length = l.length := by
  induction l with
  | nil => rfl
  | cons x xs ih =>
      simp [sortByTimestampAsc, length_insertByTimestampAsc, ih]

theorem get_history_exclude_eq (c : MongoCollection) (mh : Nat)
    (cid : String) (lim : Option Nat) (h : c.failing = false) :
    MongoDBClient.get_conversation_history true c mh cid lim true
      = (dropCurrentPair ((sortByTimestampDesc
          (c.docs.filter (fun m => m.conversation_id == cid))).take
          (pyOrNat lim mh + 2))).reverse := by
  have hnz : ¬ (pyOrNat lim mh + 2 = 0) := by omega
  simp [MongoDBClient.get_conversation_history, MongoCollection.findDesc,
    h, hnz]

theorem get_history_no_exclude_eq (c : MongoCollection) (mh : Nat)
    (cid : String) (lim : Option Nat) (h : c.failing = false)
    (hnz : pyOrNat lim mh ≠ 0) :
    MongoDBClient.get_conversation_history true c mh cid lim false
      = ((sortByTimestampDesc
          (c.docs.filter (fun m => m.conversation_id == cid))).take
          (pyOrNat lim mh)).reverse := by
  simp [MongoDBClient.get_conversation_history, MongoCollection.findDesc,
    h, hnz]

theorem length_dropCurrentPair_le (l : List Message) :
    (dropCurrentPair l).length ≤ l.length := by
  unfold dropCurrentPair
  split
  · split
    · simp [List.length_drop]
    · exact le_refl _
  · exact le_refl _

/-- C1: for a conversation whose messages are, oldest first,
u1@t1, a1@t2, u2@t3, a2@t4 (u = role user, a = role assistant), resolving
with exclude_current = true and limit = 10 returns exactly [u1, a1] in
oldest-first order: the scan finds the user-role message u2 within the
first two positions of the newest-first fetch and drops the two newest
messages a2, u2. -/
theorem resolve_drops_current_pair (t1 t2 t3 t4 : Nat)
    (h12 : t1 < t2) (h23 : t2 < t3) (h34 : t3 < t4) (q1 r1 q2 r2 : String) :
    MongoDBClient.get_conversation_history true
      { docs := [
          { conversation_id := "conv", role := some "user",
            type_ := none, content := some q1, timestamp := t1 },
          { conversation_id := "conv", role := some "assistant",
            type_ := none, content := some r1, timestamp := t2 },
          { conversation_id := "conv", role := some "user",
            type_ := none, content := some q2, timestamp := t3 },
          { conversation_id := "conv", role := some "assistant",
            type_ := none, content := some r2, timestamp := t4 } ],
        failing := false } 10 "conv" (some 10) true
      = [ { conversation_id := "conv", role := some "user",
            type_ := none, content := some q1, timestamp := t1 },
          { conversation_id := "conv", role := some "assistant",
            type_ := none, content := some r1, timestamp := t2 } ] := by
  have e12 : t1 ≤ t2 := le_of_lt h12
  have e23 : t2 ≤ t3 := le_of_lt h23
  have e34 : t3 ≤ t4 := le_of_lt h34
  have e13 : t1 ≤ t3 := le_trans e12 e23
  have e24 : t2 ≤ t4 := le_trans e23 e34
  have e14 : t1 ≤ t4 := le_trans e13 e34
  simp +decide [MongoDBClient.get_conversation_history,
    MongoCollection.findDesc, sortByTimestampDesc, insertByTimestampDesc,
    dropCurrentPair, pyOrNat, e12, e13, e14, e23, e24, e34]

/-- Witness for `resolve_drops_current_pair` at timestamps 1 < 2 < 3 < 4
and concrete contents. -/
theorem resolve_drops_current_pair_witness :
    MongoDBClient.get_conversation_history true
      { docs := [
          { conversation_id := "conv", role := some "user",
            type_ := none, content := some "q1", timestamp := 1 },
          { conversation_id := "conv", role := some "assistant",
            type_ := none, content := some "r1", timestamp := 2 },
          { conversation_id := "conv", role := some "user",
            type_ := none, content := some "q2", timestamp := 3 },
          { conversation_id := "conv", role := some "assistant",
            type_ := none, content := some "r2", timestamp := 4 } ],
        failing := false } 10 "conv" (some 10) true
      = [ { conversation_id := "conv", role := some "user",
            type_ := none, content := some "q1", timestamp := 1 },
          { conversation_id := "conv", role := some "assistant",
            type_ := none, content := some "r1", timestamp := 2 } ] :=
  resolve_drops_current_pair 1 2 3 4 (by decide) (by decide) (by decide)
    "q1" "r1" "q2" "r2"

/-- A conversation of 20 messages that all carry role `assistant`. -/
def allAssistantDocs : List Message :=
  (List.range 20).map (fun i =>
    { conversation_id := "conv", role := some "assistant", type_ := none,
      content := some "", timestamp := i })

/-- A conversation of 20 messages alternating user/assistant roles,
oldest first starting with a user message. -/
def alternatingDocs : List Message :=
  (List.range 20).map (fun i =>
    { conversation_id := "conv",
      role := some (if i % 2 == 0 then "user" else "assistant"),
      type_ := none, content := some "", timestamp := i })

/-- C2 counterexample: on a conversation of 20 stored messages that all
carry role `assistant`, resolving with limit = 5 and the default
exclude_current = true returns 7 messages, exceeding the caller-supplied
limit: the overfetch of limit + 2 is not trimmed back when no user-role
message sits in the first two newest-first positions. -/
theorem limit_exceeded_counterexample :
    (MongoDBClient.get_conversation_history true
        { docs := allAssistantDocs, failing := false } 10 "conv"
        (some 5) true).length = 7 ∧
    ¬ ((MongoDBClient.get_conversation_history true
        { docs := allAssistantDocs, failing := false } 10 "conv"
        (some 5) true).length ≤ 5) := by
  decide

/-- C2 amended: for every conversation with at least 20 stored messages,
resolving with limit = 5 and exclude_current = false returns exactly the
5 newest messages in oldest-first order (the reversed newest-first
5-window); with exclude_current = true the result never exceeds
limit + 2 = 7 messages, and whenever a user-role message appears among
the two newest fetched it is exactly the 3rd- through 7th-newest
messages (5 of them), while when none does the limit + 2 overfetch is
returned untrimmed. -/
theorem limit_enforcement_amended (c : MongoCollection) (cid : String)
    (h : c.failing = false)
    (h20 : 20 ≤ (c.docs.filter (fun m => m.conversation_id == cid)).length) :
    MongoDBClient.get_conversation_history true c 10 cid (some 5) false
      = ((sortByTimestampDesc
          (c.docs.filter (fun m => m.conversation_id == cid))).take 5).reverse ∧
    (MongoDBClient.get_conversation_history true c 10 cid
        (some 5) false).length = 5 ∧
    (MongoDBClient.get_conversation_history true c 10 cid
        (some 5) true).length ≤ 7 ∧
    ((((sortByTimestampDesc
          (c.docs.filter (fun m => m.conversation_id == cid))).take 7).take 2).any
        (fun m => m.role == some "user") = true →
      MongoDBClient.get_conversation_history true c 10 cid (some 5) true
        = (((sortByTimestampDesc
            (c.docs.filter (fun m => m.conversation_id == cid))).take 7).drop
            2).reverse ∧
      (MongoDBClient.get_conversation_history true c 10 cid
          (some 5) true).length = 5) ∧
    ((((sortByTimestampDesc
          (c.docs.filter (fun m => m.conversation_id == cid))).take 7).take 2).any
        (fun m => m.role == some "user") = false →
      MongoDBClient.get_conversation_history true c 10 cid (some 5) true
        = ((sortByTimestampDesc
            (c.docs.filter (fun m => m.conversation_id == cid))).take
            7).reverse) := by
  have hslen : (sortByTimestampDesc
      (c.docs.filter (fun m => m.conversation_id == cid))).length
      = (c.docs.filter (fun m => m.conversation_id == cid)).length :=
    length_sortByTimestampDesc _
  have hlen7 : ((sortByTimestampDesc
      (c.docs.filter (fun m => m.conversation_id == cid))).take 7).length = 7 := by
    simp [List.length_take, hslen]
    omega
  have e7 : pyOrNat (some 5) 10 + 2 = 7 := rfl
  have e5 : pyOrNat (some 5) 10 = 5 := rfl
  have heqT := get_history_exclude_eq c 10 cid (some 5) h
  rw [e7] at heqT
  have heqF := get_history_no_exclude_eq c 10 cid (some 5) h (by decide)
  rw [e5] at heqF
  refine ⟨heqF, ?_, ?_, ?_, ?_⟩
  · rw [heqF, List.length_reverse, List.length_take, hslen]
    omega
  · rw [heqT, List.length_reverse]
    exact le_trans (length_dropCurrentPair_le _) (le_of_eq hlen7)
  · intro hany
    have hdrop : dropCurrentPair ((sortByTimestampDesc
        (c.docs.filter (fun m => m.conversation_id == cid))).take 7)
        = ((sortByTimestampDesc
          (c.docs.filter (fun m => m.conversation_id == cid))).take 7).drop 2 := by
      unfold dropCurrentPair
      rw [hlen7]
      simp [hany]
    refine ⟨by rw [heqT, hdrop], ?_⟩
    rw [heqT, hdrop, List.length_reverse, List.length_drop, hlen7]
  · intro hany
    have hdrop : dropCurrentPair ((sortByTimestampDesc
        (c.docs.filter (fun m => m.conversation_id == cid))).take 7)
        = (sortByTimestampDesc
          (c.docs.filter (fun m => m.conversation_id == cid))).take 7 := by
      unfold dropCurrentPair
      rw [hany]
      simp
    rw [heqT, hdrop]

/-- Witness for `limit_enforcement_amended`: on a 20-message alternating
conversation (user among the two newest) both windows have exactly 5
messages, and on a 20-message all-assistant conversation the untrimmed
limit + 2 window is returned. -/
theorem limit_enforcement_amended_witness :
    (MongoDBClient.get_conversation_history true
        { docs := alternatingDocs, failing := false } 10 "conv"
        (some 5) false).length = 5 ∧
    (MongoDBClient.get_conversation_history true
        { docs := alternatingDocs, failing := false } 10 "conv"
        (some 5) true).length = 5 ∧
    MongoDBClient.get_conversation_history true
        { docs := allAssistantDocs, failing := false } 10 "conv"
        (some 5) true
      = ((sortByTimestampDesc
          (({ docs := allAssistantDocs,
              failing := false } : MongoCollection).docs.filter
            (fun m => m.conversation_id == "conv"))).take 7).reverse :=
  ⟨(limit_enforcement_amended
      { docs := alternatingDocs, failing := false } "conv" rfl (by decide)).2.1,
   ((limit_enforcement_amended
      { docs := alternatingDocs, failing := false } "conv" rfl
      (by decide)).2.2.2.1 (by decide)).2,
   (limit_enforcement_amended
      { docs := allAssistantDocs, failing := false } "conv" rfl
      (by decide)).2.2.2.2 (by decide)⟩

/-- The raw document list produced by the repository's query, before
per-record validation (empty on a driver failure). -/
def fetchedDocs (c : MongoCollection) (cid : String) (lim : Option Nat)
    (skip : Nat) : List Message :=
  match c.findAsc cid lim skip with
  | Except.error _ => []
  | Except.ok l => l

/-- C3: every record returned by the repository's fetch is the validation
of a raw fetched document; a raw document with a legacy type and no role
gets its role from the pure migration, which maps human→user,
ai→assistant, system→system and passes any unrecognized type value
through unchanged. -/
theorem legacy_type_migration (c : MongoCollection) (cid : String)
    (lim : Option Nat) (skip : Nat) (hfail : c.failing = false) :
    (∀ out ∈ ConversationRepository.get_conversation_history true c cid lim skip,
      ∃ raw ∈ fetchedDocs c cid lim skip, out = validateMessage raw) ∧
    (∀ (msg : Message) (t : String), msg.type_ = some t → msg.role = none →
      (validateMessage msg).role = some (mapTypeToRole t)) ∧
    mapTypeToRole "human" = "user" ∧
    mapTypeToRole "ai" = "assistant" ∧
    mapTypeToRole "system" = "system" ∧
    (∀ t : String, t ≠ "human" → t ≠ "ai" → t ≠ "system" →
      mapTypeToRole t = t) := by
  refine ⟨?_, ?_, rfl, rfl, rfl, ?_⟩
  · intro out hout
    have hrepo : ConversationRepository.get_conversation_history true c cid lim skip
        = (fetchedDocs c cid lim skip).map validateMessage := by
      simp [ConversationRepository.get_conversation_history, fetchedDocs,
        MongoCollection.findAsc, hfail]
    rw [hrepo] at hout
    obtain ⟨raw, hraw, hval⟩ := List.mem_map.mp hout
    exact ⟨raw, hraw, hval.symm⟩
  · intro msg t ht hr
    simp [validateMessage, hr, ht]
    split <;> simp
  · intro t h1 h2 h3
    simp [mapTypeToRole, h1, h2, h3]

/-- Witness for `legacy_type_migration`: a legacy human record migrates
to role user, and an unrecognized type value passes through. -/
theorem legacy_type_migration_witness :
    (validateMessage { conversation_id := "c", role := none,
                       type_ := some "human", content := some "x",
                       timestamp := 0 }).role
      = some (mapTypeToRole "human") ∧
    mapTypeToRole "foo" = "foo" :=
  ⟨(legacy_type_migration { docs := [], failing := false } "c" none 0
      rfl).2.1 _ "human" rfl rfl,
   (legacy_type_migration { docs := [], failing := false } "c" none 0
      rfl).2.2.2.2.2 "foo" (by decide) (by decide) (by decide)⟩

/-- C4 counterexample: a record missing both role and type, read through
the history tool facade, is formatted with role "unknown", not "user":
the facade's read path applies no migration and defaults a missing role
to "unknown". -/
theorem facade_role_default_counterexample :
    ((ConversationHandler.get_conversation_history true
        { docs := [ { conversation_id := "conv", role := none, type_ := none,
                      content := some "hi", timestamp := 1 } ],
          failing := false }
        10 "conv" none false).messages.map FormattedMessage.role)
      = ["unknown"] ∧ ("unknown" : String) ≠ "user" := by
  decide

/-- C4 amended: a missing content field resolves to the empty string on
both read paths; a record missing both role and type resolves to role
"user" on the repository read path, while the history tool facade's
formatted response instead defaults a missing role to "unknown". -/
theorem default_repair_amended (msg : Message) :
    (msg.role = none → msg.type_ = none →
      (validateMessage msg).role = some "user") ∧
    (msg.content = none → (validateMessage msg).content = some "") ∧
    (msg.role = none → (formatMessage msg).role = "unknown") ∧
    (msg.content = none → (formatMessage msg).content = "") := by
  refine ⟨?_, ?_, ?_, ?_⟩
  · intro h1 h2
    simp [validateMessage, h1, h2]
    split <;> rfl
  · intro h1
    cases hr : msg.role <;> cases ht : msg.type_ <;>
      simp [validateMessage, hr, ht, h1]
  · intro h1
    simp [formatMessage, h1]
  · intro h1
    simp [formatMessage, h1]

/-- Witness for `default_repair_amended` on a record with every optional
field missing. -/
theorem default_repair_amended_witness :
    (validateMessage { conversation_id := "c", role := none, type_ := none,
                       content := none, timestamp := 5 }).role
      = some "user" ∧
    (formatMessage { conversation_id := "c", role := none, type_ := none,
                     content := none, timestamp := 5 }).role = "unknown" :=
  ⟨(default_repair_amended _).1 rfl rfl,
   (default_repair_amended _).2.2.1 rfl⟩

/-- C5: an unreachable store, a driver exception during the query, and an
unknown conversation id all yield the empty list — never an error — on
both the resolver's and the repository's read paths. -/
theorem storage_failure_yields_empty (cid : String) (lim : Option Nat)
    (exc : Bool) (skip mh : Nat) (c : MongoCollection) :
    MongoDBClient.get_conversation_history false c mh cid lim exc = [] ∧
    (c.failing = true →
      MongoDBClient.get_conversation_history true c mh cid lim exc = []) ∧
    ((∀ m ∈ c.docs, m.conversation_id ≠ cid) →
      MongoDBClient.get_conversation_history true c mh cid lim exc = []) ∧
    ConversationRepository.get_conversation_history false c cid lim skip = [] ∧
    (c.failing = true →
      ConversationRepository.get_conversation_history true c cid lim skip = []) ∧
    ((∀ m ∈ c.docs, m.conversation_id ≠ cid) →
      ConversationRepository.get_conversation_history true c cid lim skip = []) := by
  refine ⟨?_, ?_, ?_, ?_, ?_, ?_⟩
  · simp [MongoDBClient.get_conversation_history]
  · intro hf
    simp [MongoDBClient.get_conversation_history, MongoCollection.findDesc, hf]
  · intro hnone
    have hfilter : c.docs.filter (fun m => m.conversation_id == cid) = [] :=
      List.filter_eq_nil_iff.mpr (by intro a ha; simpa using hnone a ha)
    cases hf : c.failing with
    | true =>
        simp [MongoDBClient.get_conversation_history,
          MongoCollection.findDesc, hf]
    | false =>
        simp [MongoDBClient.get_conversation_history,
          MongoCollection.findDesc, hf, hfilter, sortByTimestampDesc,
          dropCurrentPair]
  · simp [ConversationRepository.get_conversation_history]
  · intro hf
    simp [ConversationRepository.get_conversation_history,
      MongoCollection.findAsc, hf]
  · intro hnone
    have hfilter : c.docs.filter (fun m => m.conversation_id == cid) = [] :=
      List.filter_eq_nil_iff.mpr (by intro a ha; simpa using hnone a ha)
    cases hf : c.failing with
    | true =>
        simp [ConversationRepository.get_conversation_history,
          MongoCollection.findAsc, hf]
    | false =>
        cases lim <;>
          simp [ConversationRepository.get_conversation_history,
            MongoCollection.findAsc, hf, hfilter, sortByTimestampAsc]

/-- Witness for `storage_failure_yields_empty`: a failing store and an
unknown conversation id on a concrete one-document store both yield []. -/
theorem storage_failure_yields_empty_witness :
    MongoDBClient.get_conversation_history true
      { docs := [], failing := true } 10 "b" none true = [] ∧
    MongoDBClient.get_conversation_history true
      { docs := [ { conversation_id := "a", role := some "user",
                    type_ := none, content := some "x", timestamp := 0 } ],
        failing := false } 10 "b" none true = [] :=
  ⟨(storage_failure_yields_empty "b" none true 0 10
      { docs := [], failing := true }).2.1 rfl,
   (storage_failure_yields_empty "b" none true 0 10
      { docs := [ { conversation_id := "a", role := some "user",
                    type_ := none, content := some "x", timestamp := 0 } ],
        failing := false }).2.2.1 (by decide)⟩

/-- C6: an exception raised during the model invocation is caught by the
orchestrator — the error text is recorded as an assistant message in
memory and a normal response with error = true is returned; a model
result containing no AI message yields the fixed synthesized error
message, recorded and returned the same way. -/
theorem orchestrator_error_handling (memory : List (String × String))
    (q e : String) (msgs : List AgentMsg) :
    ((BedrockRAGAgent.answer_question memory q (Except.error e)).1.error = true ∧
     (BedrockRAGAgent.answer_question memory q (Except.error e)).1.messages
       = [AgentMsg.human ("Answer this question: " ++ q),
          AgentMsg.ai ("An error occurred while generating the answer: " ++ e)] ∧
     (BedrockRAGAgent.answer_question memory q (Except.error e)).2
       = memory ++ [("user", q),
          ("assistant", "An error occurred while generating the answer: " ++ e)]) ∧
    (msgs.filter AgentMsg.isAI = [] →
     (BedrockRAGAgent.answer_question memory q (Except.ok msgs)).1.error = true ∧
     (BedrockRAGAgent.answer_question memory q (Except.ok msgs)).1.messages
       = [AgentMsg.human ("Answer this question: " ++ q),
          AgentMsg.ai "Error: Could not generate an answer for this query."] ∧
     (BedrockRAGAgent.answer_question memory q (Except.ok msgs)).2
       = memory ++ [("user", q),
          ("assistant", "Error: Could not generate an answer for this query.")]) := by
  constructor
  · refine ⟨rfl, rfl, ?_⟩
    simp [BedrockRAGAgent.answer_question]
  · intro h
    simp [BedrockRAGAgent.answer_question, h]

/-- Witness for `orchestrator_error_handling`: a raised exception and an
AI-free model result on concrete inputs. -/
theorem orchestrator_error_handling_witness :
    (BedrockRAGAgent.answer_question [] "hi" (Except.error "boom")).1.error
      = true ∧
    (BedrockRAGAgent.answer_question [] "hi"
        (Except.ok [AgentMsg.human "x"])).1.messages
      = [AgentMsg.human "Answer this question: hi",
         AgentMsg.ai "Error: Could not generate an answer for this query."] :=
  ⟨(orchestrator_error_handling [] "hi" "boom" [AgentMsg.human "x"]).1.1,
   ((orchestrator_error_handling [] "hi" "boom"
      [AgentMsg.human "x"]).2 rfl).2.1⟩

/-- C7: filter_by_metadata is a pure filter: the result is a sublist of
the input (original order, elements unchanged) and a source is kept
exactly when its metadata dict is present and maps the field to a value
equal to the given one; a source missing the field or the whole metadata
dict is excluded. -/
theorem filter_by_metadata_pure (sources : List Source)
    (field value : String) :
    (KnowledgeBaseRetriever.filter_by_metadata sources field value).Sublist
      sources ∧
    (∀ s : Source,
      s ∈ KnowledgeBaseRetriever.filter_by_metadata sources field value ↔
      (s ∈ sources ∧
        ∃ md, s.metadata = some md ∧ md.lookup field = some value)) := by
  have hp : ∀ s : Source,
      ((match s.metadata with
        | none => false
        | some md =>
            match md.lookup field with
            | none => false
            | some v => v == value) = true)
      ↔ (∃ md, s.metadata = some md ∧ md.lookup field = some value) := by
    intro s
    cases hmd : s.metadata with
    | none => simp
    | some md =>
        cases hlk : md.lookup field with
        | none => simp [hlk]
        | some v => simp [hlk, beq_iff_eq]
  refine ⟨List.filter_sublist _, ?_⟩
  intro s
  simp only [KnowledgeBaseRetriever.filter_by_metadata, List.mem_filter]
  constructor
  · rintro ⟨h1, h2⟩
    exact ⟨h1, (hp s).mp h2⟩
  · rintro ⟨h1, h2⟩
    exact ⟨h1, (hp s).mpr h2⟩

/-- Witness for `filter_by_metadata_pure`: on sources with metadata
lang=en and lang=fr, filtering on lang=en keeps exactly the first. -/
theorem filter_by_metadata_pure_witness :
    { content := "doc1", metadata := some [("lang", "en")] }
      ∈ KnowledgeBaseRetriever.filter_by_metadata
        [ { content := "doc1", metadata := some [("lang", "en")] },
          { content := "doc2", metadata := some [("lang", "fr")] } ]
        "lang" "en" ∧
    ¬ ({ content := "doc2", metadata := some [("lang", "fr")] } : Source)
      ∈ KnowledgeBaseRetriever.filter_by_metadata
        [ { content := "doc1", metadata := some [("lang", "en")] },
          { content := "doc2", metadata := some [("lang", "fr")] } ]
        "lang" "en" :=
  ⟨((filter_by_metadata_pure
      [ { content := "doc1", metadata := some [("lang", "en")] },
        { content := "doc2", metadata := some [("lang", "fr")] } ]
      "lang" "en").2 _).mpr
      ⟨by decide, [("lang", "en")], rfl, rfl⟩,
   fun hmem =>
     by simpa using (((filter_by_metadata_pure
        [ { content := "doc1", metadata := some [("lang", "en")] },
          { content := "doc2", metadata := some [("lang", "fr")] } ]
        "lang" "en").2 _).mp hmem).2⟩

/-- C8: clear_conversation removes every message of the conversation and
returns success; on a conversation with no stored messages it succeeds
with deleted_count zero and leaves the store unchanged; running it twice
in a row equals running it once. -/
theorem clear_conversation_idempotent (c : MongoCollection) (cid : String)
    (h : c.failing = false) :
    (ConversationRepository.clear_conversation true c cid).1.success = true ∧
    (∀ m ∈ (ConversationRepository.clear_conversation true c cid).2.docs,
      m.conversation_id ≠ cid) ∧
    ((∀ m ∈ c.docs, m.conversation_id ≠ cid) →
      (ConversationRepository.clear_conversation true c cid).1.deleted_count
        = 0 ∧
      (ConversationRepository.clear_conversation true c cid).2 = c) ∧
    ConversationRepository.clear_conversation true
        (ConversationRepository.clear_conversation true c cid).2 cid
      = ({ success := true, deleted_count := 0 },
         (ConversationRepository.clear_conversation true c cid).2) := by
  have hcc : ConversationRepository.clear_conversation true c cid
      = ({ success := true,
           deleted_count := c.docs.length
             - (c.docs.filter (fun m => m.conversation_id != cid)).length },
         { docs := c.docs.filter (fun m => m.conversation_id != cid),
           failing := c.failing }) := by
    simp [ConversationRepository.clear_conversation, delete_many, h]
  refine ⟨by rw [hcc], ?_, ?_, ?_⟩
  · rw [hcc]
    intro m hm
    have := List.mem_filter.mp hm
    simpa using this.2
  · intro hempty
    have hfe : c.docs.filter (fun m => m.conversation_id != cid) = c.docs :=
      List.filter_eq_self.mpr (by intro a ha; simpa using hempty a ha)
    rw [hcc, hfe]
    exact ⟨Nat.sub_self _, rfl⟩
  · have hd : (c.docs.filter (fun m => m.conversation_id != cid)).filter
        (fun m => m.conversation_id != cid)
        = c.docs.filter (fun m => m.conversation_id != cid) :=
      List.filter_eq_self.mpr
        (by intro a ha; exact (List.mem_filter.mp ha).2)
    rw [hcc]
    simp [ConversationRepository.clear_conversation, delete_many, h, hd]

/-- Witness for `clear_conversation_idempotent` on a two-conversation
store, clearing conversation "a". -/
theorem clear_conversation_idempotent_witness :
    (ConversationRepository.clear_conversation true
      { docs := [ { conversation_id := "a", role := some "user",
                    type_ := none, content := some "x", timestamp := 0 },
                  { conversation_id := "b", role := some "user",
                    type_ := none, content := some "y", timestamp := 1 } ],
        failing := false } "a").1.success = true ∧
    ConversationRepository.clear_conversation true
        (ConversationRepository.clear_conversation true
          { docs := [ { conversation_id := "a", role := some "user",
                        type_ := none, content := some "x", timestamp := 0 },
                      { conversation_id := "b", role := some "user",
                        type_ := none, content := some "y", timestamp := 1 } ],
            failing := false } "a").2 "a"
      = ({ success := true, deleted_count := 0 },
         (ConversationRepository.clear_conversation true
          { docs := [ { conversation_id := "a", role := some "user",
                        type_ := none, content := some "x", timestamp := 0 },
                      { conversation_id := "b", role := some "user",
                        type_ := none, content := some "y", timestamp := 1 } ],
            failing := false } "a").2) :=
  ⟨(clear_conversation_idempotent _ "a" rfl).1,
   (clear_conversation_idempotent _ "a" rfl).2.2.2⟩

/-- C9: a caller-supplied limit of 0 (falsy in Python) is treated as
unset and replaced by the configured default history length, both in the
MongoDB client and in the history tool facade, so resolving with limit 0
behaves exactly like an omitted limit and returns up to the
default-limit window whenever that configured default is nonzero; in the
degenerate case of a zero configured default the zero limit reaches the
driver, for which limit 0 means no limit, and the whole conversation is
returned rather than the empty sequence. -/
theorem zero_limit_treated_as_unset (c : MongoCollection) (mh : Nat)
    (cid : String) (exc : Bool) :
    pyOrNat (some 0) mh = mh ∧
    MongoDBClient.get_conversation_history true c mh cid (some 0) exc
      = MongoDBClient.get_conversation_history true c mh cid none exc ∧
    ConversationHandler.get_conversation_history true c mh cid (some 0) exc
      = ConversationHandler.get_conversation_history true c mh cid none exc ∧
    (mh ≠ 0 →
      (MongoDBClient.get_conversation_history true c mh cid
          (some 0) false).length ≤ mh) ∧
    (mh = 0 → c.failing = false →
      MongoDBClient.get_conversation_history true c mh cid (some 0) false
        = (sortByTimestampDesc
            (c.docs.filter (fun m => m.conversation_id == cid))).reverse) := by
  refine ⟨rfl, rfl, rfl, ?_, ?_⟩
  · intro hmh
    cases hf : c.failing with
    | true =>
        simp [MongoDBClient.get_conversation_history,
          MongoCollection.findDesc, hf]
    | false =>
        rw [get_history_no_exclude_eq c mh cid (some 0) hf
          (by simpa [pyOrNat] using hmh)]
        simp [pyOrNat, List.length_take]
  · intro hmh hf
    subst hmh
    simp [MongoDBClient.get_conversation_history, MongoCollection.findDesc,
      pyOrNat, hf]

/-- Witness for `zero_limit_treated_as_unset` at the configured default
10 and at a zero default on a concrete one-message conversation. -/
theorem zero_limit_treated_as_unset_witness :
    (MongoDBClient.get_conversation_history true
        { docs := [ { conversation_id := "conv", role := some "user",
                      type_ := none, content := some "x", timestamp := 0 } ],
          failing := false } 10 "conv" (some 0) false).length ≤ 10 ∧
    MongoDBClient.get_conversation_history true
        { docs := [ { conversation_id := "conv", role := some "user",
                      type_ := none, content := some "x", timestamp := 0 } ],
          failing := false } 0 "conv" (some 0) false
      = (sortByTimestampDesc
          (({ docs := [ { conversation_id := "conv", role := some "user",
                          type_ := none, content := some "x",
                          timestamp := 0 } ],
              failing := false } : MongoCollection).docs.filter
            (fun m => m.conversation_id == "conv"))).reverse :=
  ⟨(zero_limit_treated_as_unset
      { docs := [ { conversation_id := "conv", role := some "user",
                    type_ := none, content := some "x", timestamp := 0 } ],
        failing := false } 10 "conv" false).2.2.2.1 (by decide),
   (zero_limit_treated_as_unset
      { docs := [ { conversation_id := "conv", role := some "user",
                    type_ := none, content := some "x", timestamp := 0 } ],
        failing := false } 0 "conv" false).2.2.2.2 rfl rfl⟩

/-- C10: the exclusion scan inspects only the literal role field of the
raw fetched records, applying no type→role migration; when every record
among the two newest fetched carries no role field (e.g. legacy records
with only a type), nothing is dropped and the resolver returns the whole
overfetched window — up to limit + 2 messages. -/
theorem exclusion_ignores_legacy_type (c : MongoCollection) (cid : String)
    (lim : Option Nat) (mh : Nat) (h : c.failing = false)
    (hlegacy : ∀ m ∈ ((sortByTimestampDesc
        (c.docs.filter (fun m => m.conversation_id == cid))).take
        (pyOrNat lim mh + 2)).take 2, m.role = none) :
    MongoDBClient.get_conversation_history true c mh cid lim true
      = ((sortByTimestampDesc
          (c.docs.filter (fun m => m.conversation_id == cid))).take
          (pyOrNat lim mh + 2)).reverse ∧
    (MongoDBClient.get_conversation_history true c mh cid lim true).length
      ≤ pyOrNat lim mh + 2 := by
  have hany : (((sortByTimestampDesc
      (c.docs.filter (fun m => m.conversation_id == cid))).take
      (pyOrNat lim mh + 2)).take 2).any
      (fun m => m.role == some "user") = false := by
    rw [List.any_eq_false]
    intro x hx
    rw [hlegacy x hx]
    simp
  have hdrop : dropCurrentPair ((sortByTimestampDesc
      (c.docs.filter (fun m => m.conversation_id == cid))).take
      (pyOrNat lim mh + 2))
      = (sortByTimestampDesc
        (c.docs.filter (fun m => m.conversation_id == cid))).take
        (pyOrNat lim mh + 2) := by
    unfold dropCurrentPair
    rw [hany]
    simp
  have heq := get_history_exclude_eq c mh cid lim h
  refine ⟨by rw [heq, hdrop], ?_⟩
  rw [heq, hdrop, List.length_reverse, List.length_take]
  exact Nat.min_le_left _ _

/-- A conversation whose two newest records are legacy documents with
only a type field and no role. -/
def legacyPairDocs : List Message :=
  [ { conversation_id := "conv", role := some "user", type_ := none,
      content := some "q1", timestamp := 1 },
    { conversation_id := "conv", role := some "assistant", type_ := none,
      content := some "r1", timestamp := 2 },
    { conversation_id := "conv", role := none, type_ := some "human",
      content := some "q2", timestamp := 3 },
    { conversation_id := "conv", role := none, type_ := some "ai",
      content := some "r2", timestamp := 4 } ]

/-- Witness for `exclusion_ignores_legacy_type`: with limit 2 on
`legacyPairDocs`, the resolver drops nothing and returns all 4 = 2 + 2
messages. -/
theorem exclusion_ignores_legacy_type_witness :
    MongoDBClient.get_conversation_history true
        { docs := legacyPairDocs, failing := false } 10 "conv"
        (some 2) true
      = ((sortByTimestampDesc
          (({ docs := legacyPairDocs,
              failing := false } : MongoCollection).docs.filter
            (fun m => m.conversation_id == "conv"))).take
          (pyOrNat (some 2) 10 + 2)).reverse ∧
    (MongoDBClient.get_conversation_history true
        { docs := legacyPairDocs, failing := false } 10 "conv"
        (some 2) true).length ≤ pyOrNat (some 2) 10 + 2 :=
  exclusion_ignores_legacy_type
    { docs := legacyPairDocs, failing := false } "conv" (some 2) 10 rfl
    (by decide)

end BedrockPOC
